import Mathlib

/-!
Shallow embedding of the Game of Life engine of this repository.

The program stores all cell state in the DOM: the grid element holds `rows` row
divs, each holding `cols` cell divs; a cell div has id `"r-c"` and an optional
`data-alive` attribute (a string).  We model that store as a `Grid`: the pair
of side lengths describes which nodes exist, and an association list keyed by
`(row, col)` records which existing nodes carry a `data-alive` attribute and
with which string value.  `document.getElementById` on an id outside the
rectangle finds no node; we model that by bounds-guarding every lookup.

Operations are translated from `src/game.js` (full-scan generation step,
resize, paint, clock) and from `src/unnamed/part_000` (the dirty-propagation
generation step).  A generation step that would throw a TypeError in the
source (reading `childNodes` of `undefined`, or assigning to `dataset` of
`null`) is modelled as returning `none`.
-/

namespace GoL

/-- The DOM cell store: `rows × cols` nodes exist; `attrs` maps the
`(row, col)` coordinate of a node to the string value of its `data-alive`
attribute (absence of an entry = attribute absent). -/
structure Grid where
  rows : Nat
  cols : Nat
  attrs : List ((Nat × Nat) × String)
deriving DecidableEq

/-- Reading an attribute from the association list (first entry wins, as a DOM
node has a single attribute value). -/
def lookupAttr : List ((Nat × Nat) × String) → Nat × Nat → Option String
  | [], _ => none
  | e :: rest, p => if e.1 = p then some e.2 else lookupAttr rest p

/-- `node.removeAttribute` of `data-alive`: drop every entry for that node. -/
def removeAttrKey (attrs : List ((Nat × Nat) × String)) (p : Nat × Nat) :
    List ((Nat × Nat) × String) :=
  attrs.filter fun e => decide (e.1 ≠ p)

/-- `node.dataset.alive = v`: replace the attribute value of the node by `v`. -/
def setAttrKey (attrs : List ((Nat × Nat) × String)) (p : Nat × Nat) (v : String) :
    List ((Nat × Nat) × String) :=
  removeAttrKey attrs p ++ [(p, v)]

/-- JavaScript truthiness of `node.dataset.alive`: `undefined` and the empty
string are falsy, every other string is truthy. -/
def truthy : Option String → Bool
  | none => false
  | some s => s != ""

/-- `getNode(r, c)?.dataset.alive`: a node exists only for coordinates inside
the grid rectangle (ids are produced only there); outside, `getElementById`
returns `null`, modelled as `none`. -/
def getNodeAttr (g : Grid) (r c : Int) : Option String :=
  if 0 ≤ r ∧ r < (g.rows : Int) ∧ 0 ≤ c ∧ c < (g.cols : Int) then
    lookupAttr g.attrs (r.toNat, c.toNat)
  else none

/-- `getIsNodeAlive(node)` of both source files: `!!(node && node.dataset.alive)`. -/
def getIsNodeAlive (g : Grid) (r c : Int) : Bool :=
  truthy (getNodeAttr g r c)

/-- Whether `getNode(r, c)` finds a node (`filter(Boolean)` on neighbors). -/
def nodeExistsI (g : Grid) (r c : Int) : Bool :=
  decide (0 ≤ r ∧ r < (g.rows : Int) ∧ 0 ≤ c ∧ c < (g.cols : Int))

/-- Node existence for already-nonnegative coordinates. -/
def nodeExists (g : Grid) (p : Nat × Nat) : Bool :=
  decide (p.1 < g.rows ∧ p.2 < g.cols)

/-- The eight neighbor offsets, in the object order of the source:
topLeft, top, topRight, right, bottomRight, bottom, bottomLeft, left. -/
def neighborCoords (r c : Int) : List (Int × Int) :=
  [(r - 1, c - 1), (r - 1, c), (r - 1, c + 1), (r, c + 1),
   (r + 1, c + 1), (r + 1, c), (r + 1, c - 1), (r, c - 1)]

/-- `Object.values(neighbors).filter(getIsNodeAlive).length`: alive-neighbor
count from the current snapshot (missing nodes count as dead). -/
def aliveNeighbors (g : Grid) (r c : Int) : Nat :=
  ((neighborCoords r c).filter fun q => getIsNodeAlive g q.1 q.2).length

/-- Aliveness of node `p` (nonnegative coordinates). -/
def cellAliveN (g : Grid) (p : Nat × Nat) : Bool :=
  getIsNodeAlive g (p.1 : Int) (p.2 : Int)

/-- Alive-neighbor count of node `p` (nonnegative coordinates). -/
def aliveNeighborsN (g : Grid) (p : Nat × Nat) : Nat :=
  aliveNeighbors g (p.1 : Int) (p.2 : Int)

/-- The application phase shared by both generation steps: first the
`nodesToKill` loop removes the attribute of each collected node, then the
`nodesToResurrect` loop sets the attribute of each collected node to the
string true. -/
def applyGeneration (attrs : List ((Nat × Nat) × String))
    (nodesToKill nodesToResurrect : List (Nat × Nat)) :
    List ((Nat × Nat) × String) :=
  nodesToResurrect.foldl (fun a p => setAttrKey a p "true")
    (nodesToKill.foldl removeAttrKey attrs)

/-- The coordinates visited by the full-scan `render` of `src/game.js`, in
loop order.  The source reads `colsLength = grid.childNodes.length` (which is
in fact the number of rows) and `rowsLength = grid.childNodes[0].childNodes.length`
(the number of columns), then visits `getNode(rowIdx, colIdx)` for
`colIdx < colsLength`, `rowIdx < rowsLength`. -/
def fullScanCoords (g : Grid) : List (Nat × Nat) :=
  (List.range g.rows).flatMap fun colIdx =>
    (List.range g.cols).map fun rowIdx => (rowIdx, colIdx)

/-- The full-scan `render` of `src/game.js`.  `none` models a thrown
TypeError: with zero rows `grid.childNodes[0]` is `undefined`, and a `null`
entry in `nodesToResurrect` makes the apply loop assign to `null.dataset`. -/
def renderFullScan (g : Grid) : Option Grid :=
  if g.rows = 0 then none
  else
    let coords := fullScanCoords g
    let nodesToKill := coords.filter fun p =>
      decide (cellAliveN g p = true ∧ ¬(aliveNeighborsN g p = 2 ∨ aliveNeighborsN g p = 3))
    let nodesToResurrect := coords.filter fun p =>
      decide (cellAliveN g p = false ∧ aliveNeighborsN g p = 3)
    if nodesToResurrect.all (fun p => nodeExists g p) then
      some { g with attrs := applyGeneration g.attrs nodesToKill nodesToResurrect }
    else none

/-- Accumulator of the dirty-propagation `render` of `src/unnamed/part_000`:
the `seen` dedup set and the two verdict lists. -/
structure CheckState where
  seen : List (Nat × Nat)
  nodesToKill : List (Nat × Nat)
  nodesToResurrect : List (Nat × Nat)
deriving DecidableEq

/-- `Object.values(neighbors).filter(Boolean)`: the neighbors of `p` whose
nodes exist, in offset order. -/
def existingNeighbors (g : Grid) (p : Nat × Nat) : List (Nat × Nat) :=
  (neighborCoords (p.1 : Int) (p.2 : Int)).filterMap fun q =>
    if nodeExistsI g q.1 q.2 then some (q.1.toNat, q.2.toNat) else none

/-- The body of `check` after its `seen` guard: read aliveness and the
alive-neighbor count from the pre-step snapshot, mark the node seen, and push
a kill/resurrect verdict per the rule comments in the source. -/
def evalCell (g : Grid) (s : CheckState) (p : Nat × Nat) : CheckState :=
  let isAlive := cellAliveN g p
  let n := aliveNeighborsN g p
  let s' : CheckState := { s with seen := p :: s.seen }
  if isAlive then
    if n = 2 ∨ n = 3 then s'
    else { s' with nodesToKill := s'.nodesToKill ++ [p] }
  else
    if n = 3 then { s' with nodesToResurrect := s'.nodesToResurrect ++ [p] }
    else s'

/-- `check(cell)` without recursion (how neighbors are visited). -/
def checkCell (g : Grid) (s : CheckState) (p : Nat × Nat) : CheckState :=
  if p ∈ s.seen then s else evalCell g s p

/-- `check(node, true)`: if the node is unseen, first visit each existing
neighbor (non-recursively), then evaluate the node itself. -/
def checkSeed (g : Grid) (s : CheckState) (p : Nat × Nat) : CheckState :=
  if p ∈ s.seen then s
  else evalCell g ((existingNeighbors g p).foldl (checkCell g) s) p

/-- `document.querySelectorAll` with the `data-alive` attribute selector
picks the nodes whose attribute is present (whatever its value). -/
def hasAliveAttr (g : Grid) (p : Nat × Nat) : Bool :=
  (lookupAttr g.attrs p).isSome

/-- The seed nodes in document order, i.e. row-major over the grid. -/
def aliveNodesDocOrder (g : Grid) : List (Nat × Nat) :=
  (List.range g.rows).flatMap fun r =>
    (List.range g.cols).filterMap fun c =>
      if hasAliveAttr g (r, c) then some (r, c) else none

/-- The accumulator state at the end of the dirty-propagation scan. -/
def dirtyFinal (g : Grid) : CheckState :=
  (aliveNodesDocOrder g).foldl (checkSeed g) ⟨[], [], []⟩

/-- The dirty-propagation `render` of `src/unnamed/part_000`: scan every
attribute-carrying node as a seed, then apply the verdict batch. -/
def renderDirty (g : Grid) : Grid :=
  let s := dirtyFinal g
  { g with attrs := applyGeneration g.attrs s.nodesToKill s.nodesToResurrect }

/-- Row phase of `initGrid` of both files: truncating drops the nodes (and
attributes) of the trailing rows; growing appends empty row divs. -/
def initGridRows (g : Grid) (reqRows : Nat) : Grid :=
  if g.rows > reqRows then
    { rows := reqRows, cols := g.cols, attrs := g.attrs.filter fun e => decide (e.1.1 < reqRows) }
  else
    { rows := reqRows, cols := g.cols, attrs := g.attrs }

/-- Column phase of `initGrid`, applied per row (all rows having the same
length): truncating drops trailing cells, growing appends fresh
attribute-less cells. -/
def initGridCols (g : Grid) (reqCols : Nat) : Grid :=
  if g.cols > reqCols then
    { rows := g.rows, cols := reqCols, attrs := g.attrs.filter fun e => decide (e.1.2 < reqCols) }
  else
    { rows := g.rows, cols := reqCols, attrs := g.attrs }

/-- `initGrid` of both files, parametrized by the already-computed target
shape: the row phase followed by the column phase. -/
def initGrid (g : Grid) (reqRows reqCols : Nat) : Grid :=
  initGridCols (initGridRows g reqRows) reqCols

/-- `column.onmousedown`: toggle the clicked node — remove the attribute when
it is exactly the string true, otherwise set it to the string true. -/
def toggleCell (g : Grid) (p : Nat × Nat) : Grid :=
  if lookupAttr g.attrs p = some "true" then
    { g with attrs := removeAttrKey g.attrs p }
  else
    { g with attrs := setAttrKey g.attrs p "true" }

/-- `DRAG_TYPE` of the source. -/
inductive DragType
  | add
  | delete
deriving DecidableEq

/-- `column.onmouseenter`: while a drag is active, delete-mode removes the
attribute of the entered node and add-mode sets it to the string true. -/
def dragEnterCell (g : Grid) (dt : Option DragType) (p : Nat × Nat) : Grid :=
  match dt with
  | some DragType.delete => { g with attrs := removeAttrKey g.attrs p }
  | some DragType.add => { g with attrs := setAttrKey g.attrs p "true" }
  | none => g

/-- Row-major list of all existing node coordinates (nesting of the DOM
traversal `grid.childNodes × row.childNodes`). -/
def rowMajorCoords (g : Grid) : List (Nat × Nat) :=
  (List.range g.rows).flatMap fun r =>
    (List.range g.cols).map fun c => (r, c)

/-- Grid effect of the clear-button handler: for every node, remove its
attribute when it is truthy. -/
def clearAllCells (g : Grid) : Grid :=
  { g with attrs :=
      ((rowMajorCoords g).foldl
        (fun a p => if truthy (lookupAttr a p) then removeAttrKey a p else a)
        g.attrs) }

/-- Whole-program state: the grid plus `state.dragType`, `state.intervalId`,
and a model of the browser interval table (`active` holds ids of currently
scheduled periodic tick sources; `nextId` generates fresh ids). -/
structure GameState where
  grid : Grid
  dragType : Option DragType
  nextId : Nat
  active : List Nat
  intervalId : Option Nat
deriving DecidableEq

/-- `clearInterval(h)`: cancels the source with id `h`; on `undefined` it is a
no-op and does not throw. -/
def clearIntervalOp (s : GameState) (h : Option Nat) : GameState :=
  match h with
  | none => s
  | some i => { s with active := s.active.erase i }

/-- `Game.pause`: clear the stored interval and forget its id. -/
def pause (s : GameState) : GameState :=
  { clearIntervalOp s s.intervalId with intervalId := none }

/-- `Game.play`: schedule a fresh periodic tick source and store its id
(without checking whether one is already running). -/
def play (s : GameState) : GameState :=
  { s with
    nextId := s.nextId + 1,
    active := s.active ++ [s.nextId],
    intervalId := some s.nextId }

/-- The play-button click handler: `intervalId === undefined ? play() : pause()`. -/
def playBtnClick (s : GameState) : GameState :=
  if s.intervalId = none then play s else pause s

/-- The grid-level `mousedown` listener (`onDrag(true)` of `src/game.js`) for
a target cell `p` with class `col`: pause first, then choose the drag type
from the attribute of the target as the listener reads it. -/
def onDragStart (s : GameState) (p : Nat × Nat) : GameState :=
  let s1 := pause s
  { s1 with
    dragType :=
      if lookupAttr s1.grid.attrs p ≠ some "true" then some DragType.delete
      else some DragType.add }

/-- A mouse press on cell `p`: the event fires the own `column.onmousedown`
of the target (the toggle) first and then bubbles to the `mousedown` listener
of the grid, which therefore reads the post-toggle attribute. -/
def mousedownGesture (s : GameState) (p : Nat × Nat) : GameState :=
  onDragStart { s with grid := toggleCell s.grid p } p

/-- Pointer entering cell `p` while a gesture may be active. -/
def mouseEnter (s : GameState) (p : Nat × Nat) : GameState :=
  { s with grid := dragEnterCell s.grid s.dragType p }

/-- A touch press on cell `p` (class `col`): the columns register no
touchstart handler, so only the grid `touchstart` listener (`onDrag(true)`)
runs, and it reads the attribute of the target as it was before the gesture —
no toggle precedes it. -/
def touchstartGesture (s : GameState) (p : Nat × Nat) : GameState :=
  onDragStart s p

/-- The window `resize` handler of `src/game.js` (`initResize`): it only calls
`initGrid`. -/
def onResize (s : GameState) (reqRows reqCols : Nat) : GameState :=
  { s with grid := initGrid s.grid reqRows reqCols }

/-- The B3/S23 transition rule as the specification states it, for comparing
the behavior of the code against the words of the specification. -/
def lifeRule (alive : Bool) (n : Nat) : Bool :=
  if alive then decide (n = 2 ∨ n = 3) else decide (n = 3)

end GoL

namespace GoL

theorem lookupAttr_filter_key (f : Nat × Nat → Bool)
    (attrs : List ((Nat × Nat) × String)) (p : Nat × Nat) :
    lookupAttr (attrs.filter fun e => f e.1) p
      = if f p then lookupAttr attrs p else none := by
  induction attrs with
  | nil => simp [lookupAttr]
  | cons e rest ih =>
    by_cases he : e.1 = p
    · subst he
      by_cases hf : f e.1 <;> simp [List.filter_cons, hf, lookupAttr, ih]
    · by_cases hf : f e.1 <;> simp [List.filter_cons, hf, lookupAttr, he, ih]

theorem lookupAttr_append (a b : List ((Nat × Nat) × String)) (p : Nat × Nat) :
    lookupAttr (a ++ b) p = (lookupAttr a p).or (lookupAttr b p) := by
  induction a with
  | nil => simp [lookupAttr]
  | cons e rest ih =>
    by_cases he : e.1 = p <;> simp [lookupAttr, he, ih]

theorem lookupAttr_removeAttrKey (attrs : List ((Nat × Nat) × String)) (q p : Nat × Nat) :
    lookupAttr (removeAttrKey attrs q) p = if p = q then none else lookupAttr attrs p := by
  unfold removeAttrKey
  rw [lookupAttr_filter_key (fun k => decide (k ≠ q)) attrs p]
  by_cases h : p = q <;> simp [h]

theorem lookupAttr_setAttrKey (attrs : List ((Nat × Nat) × String)) (q p : Nat × Nat)
    (v : String) :
    lookupAttr (setAttrKey attrs q v) p = if p = q then some v else lookupAttr attrs p := by
  unfold setAttrKey
  rw [lookupAttr_append, lookupAttr_removeAttrKey]
  by_cases h : p = q
  · simp [h, lookupAttr]
  · have hqp : ¬q = p := fun hh => h hh.symm
    simp only [if_neg h, lookupAttr, if_neg hqp]
    cases lookupAttr attrs p <;> simp

theorem lookupAttr_foldl_remove (l : List (Nat × Nat))
    (attrs : List ((Nat × Nat) × String)) (p : Nat × Nat) :
    lookupAttr (l.foldl removeAttrKey attrs) p
      = if p ∈ l then none else lookupAttr attrs p := by
  induction l generalizing attrs with
  | nil => simp
  | cons q rest ih =>
    simp only [List.foldl_cons, ih, lookupAttr_removeAttrKey, List.mem_cons]
    by_cases h1 : p ∈ rest <;> by_cases h2 : p = q <;> simp [h1, h2]

theorem lookupAttr_foldl_set (l : List (Nat × Nat))
    (attrs : List ((Nat × Nat) × String)) (p : Nat × Nat) :
    lookupAttr (l.foldl (fun a q => setAttrKey a q "true") attrs) p
      = if p ∈ l then some "true" else lookupAttr attrs p := by
  induction l generalizing attrs with
  | nil => simp
  | cons q rest ih =>
    simp only [List.foldl_cons, ih, lookupAttr_setAttrKey, List.mem_cons]
    by_cases h1 : p ∈ rest <;> by_cases h2 : p = q <;> simp [h1, h2]

theorem lookupAttr_applyGeneration (attrs : List ((Nat × Nat) × String))
    (kills res : List (Nat × Nat)) (p : Nat × Nat) :
    lookupAttr (applyGeneration attrs kills res) p
      = if p ∈ res then some "true"
        else if p ∈ kills then none
        else lookupAttr attrs p := by
  unfold applyGeneration
  rw [lookupAttr_foldl_set, lookupAttr_foldl_remove]

theorem cellAliveN_eq_truthy (g : Grid) (p : Nat × Nat)
    (h1 : p.1 < g.rows) (h2 : p.2 < g.cols) :
    cellAliveN g p = truthy (lookupAttr g.attrs p) := by
  unfold cellAliveN getIsNodeAlive getNodeAttr
  rw [if_pos]
  · simp
  · refine ⟨by positivity, ?_, by positivity, ?_⟩ <;> exact_mod_cast ‹_›

theorem cellAliveN_oob (g : Grid) (p : Nat × Nat)
    (h : ¬(p.1 < g.rows ∧ p.2 < g.cols)) :
    cellAliveN g p = false := by
  unfold cellAliveN getIsNodeAlive getNodeAttr
  rw [if_neg]
  · rfl
  · intro hc
    exact h ⟨by exact_mod_cast hc.2.1, by exact_mod_cast hc.2.2.2⟩

theorem mem_fullScanCoords (g : Grid) (p : Nat × Nat) :
    p ∈ fullScanCoords g ↔ p.1 < g.cols ∧ p.2 < g.rows := by
  unfold fullScanCoords
  simp only [List.mem_flatMap, List.mem_map, List.mem_range]
  constructor
  · rintro ⟨c, hc, r, hr, rfl⟩
    exact ⟨hr, hc⟩
  · rintro ⟨h1, h2⟩
    exact ⟨p.2, h2, p.1, h1, rfl⟩

theorem mem_aliveNodesDocOrder (g : Grid) (p : Nat × Nat) :
    p ∈ aliveNodesDocOrder g ↔
      p.1 < g.rows ∧ p.2 < g.cols ∧ hasAliveAttr g p = true := by
  unfold aliveNodesDocOrder
  simp only [List.mem_flatMap, List.mem_filterMap, List.mem_range]
  constructor
  · rintro ⟨r, hr, c, hc, hif⟩
    by_cases ha : hasAliveAttr g (r, c)
    · rw [if_pos ha] at hif
      cases hif
      exact ⟨hr, hc, ha⟩
    · rw [if_neg ha] at hif
      cases hif
  · rintro ⟨h1, h2, h3⟩
    exact ⟨p.1, h1, p.2, h2, by rw [show ((p.1, p.2) : Nat × Nat) = p from rfl, if_pos h3]⟩

theorem mem_existingNeighbors (g : Grid) (p q : Nat × Nat)
    (h : q ∈ existingNeighbors g p) : nodeExists g q = true := by
  unfold existingNeighbors at h
  simp only [List.mem_filterMap] at h
  obtain ⟨a, _, hif⟩ := h
  by_cases he : nodeExistsI g a.1 a.2
  · rw [if_pos he] at hif
    cases hif
    unfold nodeExistsI at he
    unfold nodeExists
    simp only [decide_eq_true_eq] at he ⊢
    omega
  · rw [if_neg he] at hif
    cases hif

end GoL

namespace GoL

/-- The kill condition both scans test: alive with a neighbor count outside 2-3. -/
def ruleKills (g : Grid) (p : Nat × Nat) : Prop :=
  cellAliveN g p = true ∧ ¬(aliveNeighborsN g p = 2 ∨ aliveNeighborsN g p = 3)

/-- The birth condition both scans test: dead with exactly 3 alive neighbors. -/
def ruleBirths (g : Grid) (p : Nat × Nat) : Prop :=
  cellAliveN g p = false ∧ aliveNeighborsN g p = 3

theorem applyGeneration_alive (g : Grid) (kills res : List (Nat × Nat)) (p : Nat × Nat)
    (h1 : p.1 < g.rows) (h2 : p.2 < g.cols)
    (hk : p ∈ kills ↔ ruleKills g p) (hr : p ∈ res ↔ ruleBirths g p) :
    truthy (lookupAttr (applyGeneration g.attrs kills res) p)
      = lifeRule (cellAliveN g p) (aliveNeighborsN g p) := by
  rw [lookupAttr_applyGeneration]
  by_cases halive : cellAliveN g p = true
  · have hnotres : p ∉ res := by
      rw [hr]
      rintro ⟨hdead, -⟩
      rw [halive] at hdead
      cases hdead
    by_cases hn : aliveNeighborsN g p = 2 ∨ aliveNeighborsN g p = 3
    · have hnotkill : p ∉ kills := by
        rw [hk]
        rintro ⟨-, hbad⟩
        exact hbad hn
      rw [if_neg hnotres, if_neg hnotkill, ← cellAliveN_eq_truthy g p h1 h2, halive]
      unfold lifeRule
      simp [hn]
    · have hkill : p ∈ kills := hk.mpr ⟨halive, hn⟩
      rw [if_neg hnotres, if_pos hkill]
      unfold lifeRule
      rw [halive]
      simp [hn, truthy]
  · have halive' : cellAliveN g p = false := by
      cases hc : cellAliveN g p
      · rfl
      · exact absurd hc halive
    by_cases hn : aliveNeighborsN g p = 3
    · have hres : p ∈ res := hr.mpr ⟨halive', hn⟩
      rw [if_pos hres]
      unfold lifeRule
      rw [halive']
      simp [hn, truthy]
    · have hnotres : p ∉ res := by
        rw [hr]
        rintro ⟨-, h3⟩
        exact hn h3
      have hnotkill : p ∉ kills := by
        rw [hk]
        rintro ⟨ha, -⟩
        rw [halive'] at ha
        cases ha
      rw [if_neg hnotres, if_neg hnotkill, ← cellAliveN_eq_truthy g p h1 h2, halive']
      unfold lifeRule
      simp [hn]

theorem cellAliveN_withAttrs (g : Grid) (A : List ((Nat × Nat) × String)) (p : Nat × Nat)
    (h1 : p.1 < g.rows) (h2 : p.2 < g.cols) :
    cellAliveN { rows := g.rows, cols := g.cols, attrs := A } p
      = truthy (lookupAttr A p) :=
  cellAliveN_eq_truthy ⟨g.rows, g.cols, A⟩ p h1 h2

theorem evalCell_seen (g : Grid) (s : CheckState) (p : Nat × Nat) :
    (evalCell g s p).seen = p :: s.seen := by
  unfold evalCell
  by_cases h1 : cellAliveN g p = true
  · by_cases hn : aliveNeighborsN g p = 2 ∨ aliveNeighborsN g p = 3 <;> simp [h1, hn]
  · by_cases hn : aliveNeighborsN g p = 3 <;> simp [h1, hn]

theorem evalCell_mem_kill (g : Grid) (s : CheckState) (p q : Nat × Nat) :
    q ∈ (evalCell g s p).nodesToKill ↔
      q ∈ s.nodesToKill ∨ (q = p ∧ ruleKills g p) := by
  unfold evalCell ruleKills
  by_cases h1 : cellAliveN g p = true
  · by_cases hn : aliveNeighborsN g p = 2 ∨ aliveNeighborsN g p = 3 <;> simp [h1, hn]
  · by_cases hn : aliveNeighborsN g p = 3 <;> simp [h1, hn]

theorem evalCell_mem_res (g : Grid) (s : CheckState) (p q : Nat × Nat) :
    q ∈ (evalCell g s p).nodesToResurrect ↔
      q ∈ s.nodesToResurrect ∨ (q = p ∧ ruleBirths g p) := by
  unfold evalCell ruleBirths
  by_cases h1 : cellAliveN g p = true
  · by_cases hn : aliveNeighborsN g p = 2 ∨ aliveNeighborsN g p = 3 <;> simp [h1, hn]
  · by_cases hn : aliveNeighborsN g p = 3 <;> simp [h1, hn]

/-- Invariant of the dirty-propagation accumulator: the verdict lists hold
exactly the seen nodes satisfying the corresponding rule condition, and every
seen node exists. -/
structure DirtyInv (g : Grid) (s : CheckState) : Prop where
  kill_iff : ∀ p, p ∈ s.nodesToKill ↔ p ∈ s.seen ∧ ruleKills g p
  res_iff : ∀ p, p ∈ s.nodesToResurrect ↔ p ∈ s.seen ∧ ruleBirths g p
  seen_exists : ∀ p ∈ s.seen, nodeExists g p = true

theorem dirtyInv_init (g : Grid) : DirtyInv g ⟨[], [], []⟩ := by
  constructor <;> simp

theorem dirtyInv_evalCell (g : Grid) (s : CheckState) (p : Nat × Nat)
    (hp : nodeExists g p = true) (h : DirtyInv g s) :
    DirtyInv g (evalCell g s p) := by
  constructor
  · intro q
    rw [evalCell_mem_kill, h.kill_iff q, evalCell_seen]
    simp only [List.mem_cons]
    constructor
    · rintro (⟨hs, hr⟩ | ⟨rfl, hr⟩)
      · exact ⟨Or.inr hs, hr⟩
      · exact ⟨Or.inl rfl, hr⟩
    · rintro ⟨rfl | hs, hr⟩
      · exact Or.inr ⟨rfl, hr⟩
      · exact Or.inl ⟨hs, hr⟩
  · intro q
    rw [evalCell_mem_res, h.res_iff q, evalCell_seen]
    simp only [List.mem_cons]
    constructor
    · rintro (⟨hs, hr⟩ | ⟨rfl, hr⟩)
      · exact ⟨Or.inr hs, hr⟩
      · exact ⟨Or.inl rfl, hr⟩
    · rintro ⟨rfl | hs, hr⟩
      · exact Or.inr ⟨rfl, hr⟩
      · exact Or.inl ⟨hs, hr⟩
  · intro q hq
    rw [evalCell_seen] at hq
    rcases List.mem_cons.mp hq with rfl | hq
    · exact hp
    · exact h.seen_exists q hq

theorem dirtyInv_checkCell (g : Grid) (s : CheckState) (p : Nat × Nat)
    (hp : nodeExists g p = true) (h : DirtyInv g s) :
    DirtyInv g (checkCell g s p) := by
  unfold checkCell
  by_cases hs : p ∈ s.seen
  · rw [if_pos hs]; exact h
  · rw [if_neg hs]; exact dirtyInv_evalCell g s p hp h

theorem dirtyInv_foldl_checkCell (g : Grid) (l : List (Nat × Nat)) (s : CheckState)
    (hl : ∀ p ∈ l, nodeExists g p = true) (h : DirtyInv g s) :
    DirtyInv g (l.foldl (checkCell g) s) := by
  induction l generalizing s with
  | nil => exact h
  | cons q rest ih =>
    simp only [List.foldl_cons]
    exact ih _ (fun p hp => hl p (List.mem_cons_of_mem q hp))
      (dirtyInv_checkCell g s q (hl q (List.mem_cons_self q rest)) h)

theorem dirtyInv_checkSeed (g : Grid) (s : CheckState) (p : Nat × Nat)
    (hp : nodeExists g p = true) (h : DirtyInv g s) :
    DirtyInv g (checkSeed g s p) := by
  unfold checkSeed
  by_cases hs : p ∈ s.seen
  · rw [if_pos hs]; exact h
  · rw [if_neg hs]
    exact dirtyInv_evalCell g _ p hp
      (dirtyInv_foldl_checkCell g _ s (fun q hq => mem_existingNeighbors g p q hq) h)

theorem dirtyInv_dirtyFinal (g : Grid) : DirtyInv g (dirtyFinal g) := by
  unfold dirtyFinal
  have key : ∀ (l : List (Nat × Nat)) (s : CheckState),
      (∀ p ∈ l, nodeExists g p = true) → DirtyInv g s →
      DirtyInv g (l.foldl (checkSeed g) s) := by
    intro l
    induction l with
    | nil => intro s _ h; exact h
    | cons q rest ih =>
      intro s hl h
      simp only [List.foldl_cons]
      exact ih _ (fun p hp => hl p (List.mem_cons_of_mem q hp))
        (dirtyInv_checkSeed g s q (hl q (List.mem_cons_self q rest)) h)
  refine key _ _ ?_ (dirtyInv_init g)
  intro p hp
  rw [mem_aliveNodesDocOrder] at hp
  unfold nodeExists
  simp only [decide_eq_true_eq]
  exact ⟨hp.1, hp.2.1⟩

end GoL

namespace GoL

/-- C2: for every cell evaluated during one generation step — in the full-scan
variant every existing node the loop visits, in the dirty-propagation variant
every node in the final seen set — the post-step alive state of the cell equals the
B3/S23 rule applied to its pre-step alive state and its pre-step alive-neighbor
count; all verdicts are computed from the pre-step snapshot and applied as one
batch, so no evaluation sees the updated state of another cell. -/
theorem evaluated_cells_follow_life_rule (g : Grid) :
    (∀ g' p, renderFullScan g = some g' → p ∈ fullScanCoords g →
        nodeExists g p = true →
        cellAliveN g' p = lifeRule (cellAliveN g p) (aliveNeighborsN g p)) ∧
    (∀ p, p ∈ (dirtyFinal g).seen →
        cellAliveN (renderDirty g) p = lifeRule (cellAliveN g p) (aliveNeighborsN g p)) := by
  constructor
  · intro g' p hrender hmem hex
    have hbounds : p.1 < g.rows ∧ p.2 < g.cols := by
      unfold nodeExists at hex
      simpa using hex
    unfold renderFullScan at hrender
    by_cases h0 : g.rows = 0
    · rw [if_pos h0] at hrender
      cases hrender
    · rw [if_neg h0] at hrender
      simp only at hrender
      split at hrender
      · injection hrender with hinj
        subst hinj
        have hk : p ∈ (fullScanCoords g).filter
            (fun p => decide (cellAliveN g p = true ∧
              ¬(aliveNeighborsN g p = 2 ∨ aliveNeighborsN g p = 3))) ↔ ruleKills g p := by
          unfold ruleKills
          simp [List.mem_filter, hmem]
        have hr : p ∈ (fullScanCoords g).filter
            (fun p => decide (cellAliveN g p = false ∧ aliveNeighborsN g p = 3)) ↔
              ruleBirths g p := by
          unfold ruleBirths
          simp [List.mem_filter, hmem]
        exact (cellAliveN_withAttrs g _ p hbounds.1 hbounds.2).trans
          (applyGeneration_alive g _ _ p hbounds.1 hbounds.2 hk hr)
      · cases hrender
  · intro p hp
    have inv := dirtyInv_dirtyFinal g
    have hex := inv.seen_exists p hp
    have hbounds : p.1 < g.rows ∧ p.2 < g.cols := by
      unfold nodeExists at hex
      simpa using hex
    have hk : p ∈ (dirtyFinal g).nodesToKill ↔ ruleKills g p := by
      rw [inv.kill_iff p]
      simp [hp]
    have hr : p ∈ (dirtyFinal g).nodesToResurrect ↔ ruleBirths g p := by
      rw [inv.res_iff p]
      simp [hp]
    show cellAliveN { rows := g.rows, cols := g.cols, attrs := applyGeneration g.attrs (dirtyFinal g).nodesToKill (dirtyFinal g).nodesToResurrect } p = lifeRule (cellAliveN g p) (aliveNeighborsN g p)
    exact (cellAliveN_withAttrs g _ p hbounds.1 hbounds.2).trans
      (applyGeneration_alive g _ _ p hbounds.1 hbounds.2 hk hr)

/-- Witness for C2 at a 1-by-1 grid whose only cell is alive: the full-scan
step and the dirty step both kill it (0 alive neighbors). -/
theorem evaluated_cells_follow_life_rule_witness :
    cellAliveN { rows := 1, cols := 1, attrs := [] } (0, 0)
        = lifeRule (cellAliveN { rows := 1, cols := 1, attrs := [((0, 0), "true")] } (0, 0))
            (aliveNeighborsN { rows := 1, cols := 1, attrs := [((0, 0), "true")] } (0, 0)) ∧
    cellAliveN (renderDirty { rows := 1, cols := 1, attrs := [((0, 0), "true")] }) (0, 0)
        = lifeRule (cellAliveN { rows := 1, cols := 1, attrs := [((0, 0), "true")] } (0, 0))
            (aliveNeighborsN { rows := 1, cols := 1, attrs := [((0, 0), "true")] } (0, 0)) := by
  constructor
  · exact (evaluated_cells_follow_life_rule
      { rows := 1, cols := 1, attrs := [((0, 0), "true")] }).1
      { rows := 1, cols := 1, attrs := [] } (0, 0) (by decide) (by decide) (by decide)
  · exact (evaluated_cells_follow_life_rule
      { rows := 1, cols := 1, attrs := [((0, 0), "true")] }).2 (0, 0) (by decide)

/-- The 6-by-6 grid on which the two generation-step variants disagree. -/
def gridSixBySix : Grid :=
  { rows := 6, cols := 6, attrs := [((0, 4), "true"), ((1, 3), "true"), ((1, 4), "true"), ((1, 5), "true")] }

/-- C1 is violated by the code: on a square 6-by-6 grid with alive cells
(0,4), (1,3), (1,4), (1,5), the full-scan step resurrects (2,4) (it has three
alive neighbors) while the dirty-propagation step leaves (2,4) dead, because
all three of its alive neighbors were marked seen while visiting the earlier
seed (0,4) and so are skipped as seeds and never expanded. -/
theorem variants_disagree_on_six_by_six :
    (renderFullScan gridSixBySix).map (fun g => cellAliveN g (2, 4)) = some true ∧
    cellAliveN (renderDirty gridSixBySix) (2, 4) = false := by
  decide

/-- C3 is violated by the code: on a 1-row 2-column grid the full-scan loop
visits exactly the coordinates (0,0) and (1,0) — the transposed rectangle — so
the in-grid coordinate (0,1) is never evaluated and the out-of-grid coordinate
(1,0) is evaluated. -/
theorem full_scan_visits_transposed_rectangle :
    fullScanCoords { rows := 1, cols := 2, attrs := [] } = [(0, 0), (1, 0)] ∧
    (0, 1) ∉ fullScanCoords { rows := 1, cols := 2, attrs := [] } ∧
    (1, 0) ∈ fullScanCoords { rows := 1, cols := 2, attrs := [] } := by
  decide

/-- C4 is violated by the code: the full-scan generation step throws — on a
zero-row grid (`grid.childNodes[0]` is undefined), and on a 2-by-4 grid with
alive cells (1,0), (1,1), (1,2), where the phantom coordinate (2,1) has three
alive neighbors so `null` is pushed into the resurrect list and the apply loop
assigns to `null.dataset`. -/
theorem render_throws_on_degenerate_grids :
    renderFullScan { rows := 0, cols := 5, attrs := [] } = none ∧
    renderFullScan { rows := 2, cols := 4, attrs := [((1, 0), "true"), ((1, 1), "true"), ((1, 2), "true")] } = none := by
  decide

end GoL

namespace GoL

theorem lookupAttr_eq_none_of_no_key (A : List ((Nat × Nat) × String)) (p : Nat × Nat)
    (h : ∀ e ∈ A, e.1 ≠ p) : lookupAttr A p = none := by
  induction A with
  | nil => rfl
  | cons e rest ih =>
    unfold lookupAttr
    rw [if_neg (h e (List.mem_cons_self e rest))]
    exact ih fun q hq => h q (List.mem_cons_of_mem e hq)

theorem initGrid_grow (g : Grid) (R C : Nat) (hR : g.rows ≤ R) (hC : g.cols ≤ C) :
    initGrid g R C = { rows := R, cols := C, attrs := g.attrs } := by
  unfold initGrid initGridRows initGridCols
  rw [if_neg (show ¬(g.rows > R) by omega)]
  rw [if_neg (show ¬(Grid.cols { rows := R, cols := g.cols, attrs := g.attrs } > C) by change ¬(g.cols > C) ; omega)]

theorem initGrid_shrink (g : Grid) (R C : Nat) (hR : R < g.rows) (hC : C < g.cols) :
    initGrid g R C = { rows := R, cols := C, attrs := (g.attrs.filter fun e => decide (e.1.1 < R)).filter fun e => decide (e.1.2 < C) } := by
  unfold initGrid initGridRows initGridCols
  rw [if_pos (show g.rows > R by omega)]
  rw [if_pos (show Grid.cols { rows := R, cols := g.cols, attrs := g.attrs.filter fun e => decide (e.1.1 < R) } > C by change g.cols > C ; omega)]

/-- C6: resizing preserves the overlap — growing to at least the current
shape keeps the state of every existing cell and leaves every newly added cell
dead; shrinking on both axes keeps exactly the alive cells whose coordinates
fall inside the new rectangle and discards the rest.  (`hwf` says the
attribute entries sit on existing nodes, which is true of every DOM state.) -/
theorem resize_preserves_overlap (g : Grid)
    (hwf : ∀ e ∈ g.attrs, e.1.1 < g.rows ∧ e.1.2 < g.cols) :
    (∀ R C, g.rows ≤ R → g.cols ≤ C →
      (∀ p : Nat × Nat, p.1 < g.rows → p.2 < g.cols →
          cellAliveN (initGrid g R C) p = cellAliveN g p) ∧
      (∀ p : Nat × Nat, p.1 < R → p.2 < C → ¬(p.1 < g.rows ∧ p.2 < g.cols) →
          cellAliveN (initGrid g R C) p = false)) ∧
    (∀ R C, R < g.rows → C < g.cols →
      ∀ p : Nat × Nat,
        cellAliveN (initGrid g R C) p
          = (cellAliveN g p && decide (p.1 < R) && decide (p.2 < C))) := by
  constructor
  · intro R C hR hC
    rw [initGrid_grow g R C hR hC]
    constructor
    · intro p hp1 hp2
      rw [cellAliveN_eq_truthy ⟨R, C, g.attrs⟩ p (show p.1 < R by omega) (show p.2 < C by omega),
        cellAliveN_eq_truthy g p hp1 hp2]
    · intro p hp1 hp2 hout
      rw [cellAliveN_eq_truthy ⟨R, C, g.attrs⟩ p hp1 hp2]
      rw [lookupAttr_eq_none_of_no_key g.attrs p
        (fun e he heq => hout (heq ▸ hwf e he))]
      rfl
  · intro R C hR hC p
    by_cases hin : p.1 < R ∧ p.2 < C
    · rw [initGrid_shrink g R C hR hC,
        cellAliveN_eq_truthy ⟨R, C, _⟩ p hin.1 hin.2]
      rw [lookupAttr_filter_key (fun k => decide (k.2 < C)) _ p,
        if_pos (show decide (p.2 < C) = true by simp [hin.2]),
        lookupAttr_filter_key (fun k => decide (k.1 < R)) _ p,
        if_pos (show decide (p.1 < R) = true by simp [hin.1])]
      rw [cellAliveN_eq_truthy g p (by omega) (by omega)]
      simp [hin.1, hin.2]
    · rw [initGrid_shrink g R C hR hC, cellAliveN_oob ⟨R, C, _⟩ p hin]
      rcases not_and_or.mp hin with h | h <;> simp [h]

/-- Witness for C6 on a 2-by-2 grid with (1,1) alive: growing to 3-by-3 keeps
(1,1) alive and leaves the new cell (2,2) dead; shrinking to 1-by-1 discards
(1,1). -/
theorem resize_preserves_overlap_witness :
    cellAliveN (initGrid { rows := 2, cols := 2, attrs := [((1, 1), "true")] } 3 3) (1, 1)
      = cellAliveN { rows := 2, cols := 2, attrs := [((1, 1), "true")] } (1, 1) ∧
    cellAliveN (initGrid { rows := 2, cols := 2, attrs := [((1, 1), "true")] } 3 3) (2, 2) = false ∧
    cellAliveN (initGrid { rows := 2, cols := 2, attrs := [((1, 1), "true")] } 1 1) (1, 1)
      = (cellAliveN { rows := 2, cols := 2, attrs := [((1, 1), "true")] } (1, 1)
          && decide ((1 : Nat) < 1) && decide ((1 : Nat) < 1)) := by
  refine ⟨?_, ?_, ?_⟩
  · exact ((resize_preserves_overlap { rows := 2, cols := 2, attrs := [((1, 1), "true")] }
      (by decide)).1 3 3 (by decide) (by decide)).1 (1, 1) (by decide) (by decide)
  · exact ((resize_preserves_overlap { rows := 2, cols := 2, attrs := [((1, 1), "true")] }
      (by decide)).1 3 3 (by decide) (by decide)).2 (2, 2) (by decide) (by decide) (by decide)
  · exact (resize_preserves_overlap { rows := 2, cols := 2, attrs := [((1, 1), "true")] }
      (by decide)).2 1 1 (by decide) (by decide) (1, 1)

/-- C9: toggling an in-bounds cell twice in a row (with no generation step in
between) returns the cell to its original alive/dead state.  `hv` restricts to
the attribute values every reachable DOM state uses (absent or exactly the
string true). -/
theorem toggle_twice_restores (g : Grid) (p : Nat × Nat)
    (h1 : p.1 < g.rows) (h2 : p.2 < g.cols)
    (hv : lookupAttr g.attrs p = none ∨ lookupAttr g.attrs p = some "true") :
    cellAliveN (toggleCell (toggleCell g p) p) p = cellAliveN g p := by
  rcases hv with hv | hv
  · have hstep1 : toggleCell g p
        = { rows := g.rows, cols := g.cols, attrs := setAttrKey g.attrs p "true" } := by
      unfold toggleCell
      rw [if_neg (by rw [hv] ; intro h ; cases h)]
    have hstep2 : toggleCell (toggleCell g p) p
        = { rows := g.rows, cols := g.cols, attrs := removeAttrKey (setAttrKey g.attrs p "true") p } := by
      rw [hstep1]
      unfold toggleCell
      rw [if_pos (by rw [lookupAttr_setAttrKey] ; simp)]
    rw [hstep2, cellAliveN_withAttrs g _ p h1 h2, cellAliveN_eq_truthy g p h1 h2,
      lookupAttr_removeAttrKey, if_pos rfl, hv]
  · have hstep1 : toggleCell g p
        = { rows := g.rows, cols := g.cols, attrs := removeAttrKey g.attrs p } := by
      unfold toggleCell
      rw [if_pos hv]
    have hstep2 : toggleCell (toggleCell g p) p
        = { rows := g.rows, cols := g.cols, attrs := setAttrKey (removeAttrKey g.attrs p) p "true" } := by
      rw [hstep1]
      unfold toggleCell
      rw [if_neg (by rw [lookupAttr_removeAttrKey, if_pos rfl] ; intro h ; cases h)]
    rw [hstep2, cellAliveN_withAttrs g _ p h1 h2, cellAliveN_eq_truthy g p h1 h2,
      lookupAttr_setAttrKey, if_pos rfl, hv]

/-- Witness for C9 on a 2-by-2 grid: double-toggling the alive cell (0,1)
restores its state. -/
theorem toggle_twice_restores_witness :
    cellAliveN (toggleCell (toggleCell { rows := 2, cols := 2, attrs := [((0, 1), "true")] } (0, 1)) (0, 1)) (0, 1)
      = cellAliveN { rows := 2, cols := 2, attrs := [((0, 1), "true")] } (0, 1) :=
  toggle_twice_restores { rows := 2, cols := 2, attrs := [((0, 1), "true")] } (0, 1)
    (by decide) (by decide) (Or.inr (by decide))

end GoL

namespace GoL

theorem lookupAttr_some_mem (A : List ((Nat × Nat) × String)) (p : Nat × Nat) (v : String)
    (h : lookupAttr A p = some v) : ∃ e ∈ A, e.2 = v := by
  induction A with
  | nil => cases h
  | cons e rest ih =>
    unfold lookupAttr at h
    split at h
    · injection h with h
      exact ⟨e, List.mem_cons_self e rest, h⟩
    · obtain ⟨q, hq, hqv⟩ := ih h
      exact ⟨q, List.mem_cons_of_mem e hq, hqv⟩

theorem valuesTrue_removeAttrKey (A : List ((Nat × Nat) × String)) (p : Nat × Nat)
    (h : ∀ e ∈ A, e.2 = "true") : ∀ e ∈ removeAttrKey A p, e.2 = "true" :=
  fun e he => h e (List.mem_of_mem_filter he)

theorem valuesTrue_setAttrKey (A : List ((Nat × Nat) × String)) (p : Nat × Nat)
    (h : ∀ e ∈ A, e.2 = "true") : ∀ e ∈ setAttrKey A p "true", e.2 = "true" := by
  intro e he
  rcases List.mem_append.mp he with he | he
  · exact valuesTrue_removeAttrKey A p h e he
  · rw [List.mem_singleton.mp he]

theorem valuesTrue_foldl_remove (l : List (Nat × Nat)) (A : List ((Nat × Nat) × String))
    (h : ∀ e ∈ A, e.2 = "true") : ∀ e ∈ l.foldl removeAttrKey A, e.2 = "true" := by
  induction l generalizing A with
  | nil => exact h
  | cons q rest ih =>
    simp only [List.foldl_cons]
    exact ih _ (valuesTrue_removeAttrKey A q h)

theorem valuesTrue_foldl_set (l : List (Nat × Nat)) (A : List ((Nat × Nat) × String))
    (h : ∀ e ∈ A, e.2 = "true") :
    ∀ e ∈ l.foldl (fun a q => setAttrKey a q "true") A, e.2 = "true" := by
  induction l generalizing A with
  | nil => exact h
  | cons q rest ih =>
    simp only [List.foldl_cons]
    exact ih _ (valuesTrue_setAttrKey A q h)

theorem valuesTrue_applyGeneration (A : List ((Nat × Nat) × String))
    (kills res : List (Nat × Nat)) (h : ∀ e ∈ A, e.2 = "true") :
    ∀ e ∈ applyGeneration A kills res, e.2 = "true" :=
  valuesTrue_foldl_set res _ (valuesTrue_foldl_remove kills A h)

theorem valuesTrue_foldl_clear (l : List (Nat × Nat)) (A : List ((Nat × Nat) × String))
    (h : ∀ e ∈ A, e.2 = "true") :
    ∀ e ∈ l.foldl (fun a q => if truthy (lookupAttr a q) then removeAttrKey a q else a) A,
      e.2 = "true" := by
  induction l generalizing A with
  | nil => exact h
  | cons q rest ih =>
    simp only [List.foldl_cons]
    apply ih
    by_cases hc : truthy (lookupAttr A q)
    · rw [if_pos hc]
      exact valuesTrue_removeAttrKey A q h
    · rw [if_neg hc]
      exact h

/-- C10: every core operation — toggle, drag-paint, either generation-step
apply, clear-all, resize — preserves the invariant that an alive marker is
exactly the string true (or absent); consequently the two alive tests used by
the code, truthiness and equality with the string true, agree on every
reachable state. -/
theorem alive_marker_invariant (g : Grid)
    (hv : ∀ e ∈ g.attrs, e.2 = "true") :
    (∀ p, ∀ e ∈ (toggleCell g p).attrs, e.2 = "true") ∧
    (∀ dt p, ∀ e ∈ (dragEnterCell g dt p).attrs, e.2 = "true") ∧
    (∀ g', renderFullScan g = some g' → ∀ e ∈ g'.attrs, e.2 = "true") ∧
    (∀ e ∈ (renderDirty g).attrs, e.2 = "true") ∧
    (∀ e ∈ (clearAllCells g).attrs, e.2 = "true") ∧
    (∀ R C, ∀ e ∈ (initGrid g R C).attrs, e.2 = "true") ∧
    (∀ r c : Int, truthy (getNodeAttr g r c) = (getNodeAttr g r c == some "true")) := by
  refine ⟨?_, ?_, ?_, ?_, ?_, ?_, ?_⟩
  · intro p
    unfold toggleCell
    split
    · exact valuesTrue_removeAttrKey g.attrs p hv
    · exact valuesTrue_setAttrKey g.attrs p hv
  · intro dt p
    cases dt with
    | none => exact hv
    | some t =>
      cases t with
      | add => exact valuesTrue_setAttrKey g.attrs p hv
      | delete => exact valuesTrue_removeAttrKey g.attrs p hv
  · intro g' hrender
    unfold renderFullScan at hrender
    split at hrender
    · cases hrender
    · simp only at hrender
      split at hrender
      · injection hrender with hinj
        subst hinj
        exact valuesTrue_applyGeneration g.attrs _ _ hv
      · cases hrender
  · exact valuesTrue_applyGeneration g.attrs _ _ hv
  · exact valuesTrue_foldl_clear (rowMajorCoords g) g.attrs hv
  · intro R C
    have hrows : ∀ e ∈ (initGridRows g R).attrs, e.2 = "true" := by
      unfold initGridRows
      split
      · exact fun e he => hv e (List.mem_of_mem_filter he)
      · exact hv
    unfold initGrid initGridCols
    split
    · exact fun e he => hrows e (List.mem_of_mem_filter he)
    · exact hrows
  · intro r c
    cases h : getNodeAttr g r c with
    | none => rfl
    | some v =>
      have hvv : v = "true" := by
        unfold getNodeAttr at h
        split at h
        · obtain ⟨e, he, hev⟩ := lookupAttr_some_mem g.attrs _ v h
          rw [← hev]
          exact hv e he
        · cases h
      rw [hvv]
      rfl

/-- Witness for C10 on a 2-by-2 grid with (0,0) alive: toggling (0,1)
preserves the marker invariant, and the two alive tests agree at (0,0). -/
theorem alive_marker_invariant_witness :
    (∀ e ∈ (toggleCell { rows := 2, cols := 2, attrs := [((0, 0), "true")] } (0, 1)).attrs, e.2 = "true") ∧
    truthy (getNodeAttr { rows := 2, cols := 2, attrs := [((0, 0), "true")] } 0 0)
      = (getNodeAttr { rows := 2, cols := 2, attrs := [((0, 0), "true")] } 0 0 == some "true") := by
  constructor
  · exact (alive_marker_invariant { rows := 2, cols := 2, attrs := [((0, 0), "true")] }
      (by decide)).1 (0, 1)
  · exact (alive_marker_invariant { rows := 2, cols := 2, attrs := [((0, 0), "true")] }
      (by decide)).2.2.2.2.2.2 0 0

end GoL

namespace GoL

theorem pause_grid (t : GameState) : (pause t).grid = t.grid := by
  obtain ⟨g, d, n, a, i⟩ := t
  cases i <;> rfl

/-- C5 amended: in a mouse paint gesture the state of the first-touched cell
at gesture start decides the mode — dead enters Add and alive enters Delete
(the own mousedown toggle of the cell runs before the grid listener reads the
attribute, so the inverted-looking test of the listener observes the
post-toggle value) — and while the mode is Add every entered cell becomes
alive, while it is Delete every entered cell becomes dead, and entering cells
never changes the mode; a touch gesture start, by contrast, reads the
pre-toggle attribute and enters the inverted mode — Delete on a dead first
cell, Add on an alive one. -/
theorem paint_gesture_mode_and_effect (s : GameState) (p : Nat × Nat)
    (h1 : p.1 < s.grid.rows) (h2 : p.2 < s.grid.cols)
    (hv : lookupAttr s.grid.attrs p = none ∨ lookupAttr s.grid.attrs p = some "true") :
    (cellAliveN s.grid p = false → (mousedownGesture s p).dragType = some DragType.add) ∧
    (cellAliveN s.grid p = true → (mousedownGesture s p).dragType = some DragType.delete) ∧
    (∀ t : GameState, ∀ q : Nat × Nat, t.dragType = some DragType.add →
        q.1 < t.grid.rows → q.2 < t.grid.cols →
        cellAliveN (mouseEnter t q).grid q = true) ∧
    (∀ t : GameState, ∀ q : Nat × Nat, t.dragType = some DragType.delete →
        cellAliveN (mouseEnter t q).grid q = false) ∧
    (∀ t : GameState, ∀ q : Nat × Nat, (mouseEnter t q).dragType = t.dragType) ∧
    (cellAliveN s.grid p = false → (touchstartGesture s p).dragType = some DragType.delete) ∧
    (cellAliveN s.grid p = true → (touchstartGesture s p).dragType = some DragType.add) := by
  have hmode : (mousedownGesture s p).dragType
      = (if lookupAttr (toggleCell s.grid p).attrs p ≠ some "true" then some DragType.delete
         else some DragType.add) := by
    show (if lookupAttr (pause { s with grid := toggleCell s.grid p }).grid.attrs p ≠ some "true"
        then some DragType.delete else some DragType.add)
      = (if lookupAttr (toggleCell s.grid p).attrs p ≠ some "true" then some DragType.delete
         else some DragType.add)
    rw [pause_grid { s with grid := toggleCell s.grid p }]
  have htouch : (touchstartGesture s p).dragType
      = (if lookupAttr s.grid.attrs p ≠ some "true" then some DragType.delete
         else some DragType.add) := by
    show (if lookupAttr (pause s).grid.attrs p ≠ some "true" then some DragType.delete
        else some DragType.add)
      = (if lookupAttr s.grid.attrs p ≠ some "true" then some DragType.delete
         else some DragType.add)
    rw [pause_grid s]
  refine ⟨?_, ?_, ?_, ?_, ?_, ?_, ?_⟩
  · intro hdead
    have hattr : lookupAttr s.grid.attrs p = none := by
      rcases hv with hv | hv
      · exact hv
      · rw [cellAliveN_eq_truthy s.grid p h1 h2, hv] at hdead
        cases hdead
    have htog : (toggleCell s.grid p).attrs = setAttrKey s.grid.attrs p "true" := by
      unfold toggleCell
      rw [if_neg (by rw [hattr] ; intro h ; cases h)]
    rw [hmode, htog, lookupAttr_setAttrKey, if_pos rfl]
    simp
  · intro halive
    have hattr : lookupAttr s.grid.attrs p = some "true" := by
      rcases hv with hv | hv
      · rw [cellAliveN_eq_truthy s.grid p h1 h2, hv] at halive
        cases halive
      · exact hv
    have htog : (toggleCell s.grid p).attrs = removeAttrKey s.grid.attrs p := by
      unfold toggleCell
      rw [if_pos hattr]
    rw [hmode, htog, lookupAttr_removeAttrKey, if_pos rfl]
    simp
  · intro t q hdt hq1 hq2
    show cellAliveN (dragEnterCell t.grid t.dragType q) q = true
    rw [hdt]
    have hset := cellAliveN_withAttrs t.grid (setAttrKey t.grid.attrs q "true") q hq1 hq2
    rw [lookupAttr_setAttrKey, if_pos rfl] at hset
    exact hset
  · intro t q hdt
    show cellAliveN (dragEnterCell t.grid t.dragType q) q = false
    rw [hdt]
    by_cases hb : q.1 < t.grid.rows ∧ q.2 < t.grid.cols
    · have hrem := cellAliveN_withAttrs t.grid (removeAttrKey t.grid.attrs q) q hb.1 hb.2
      rw [lookupAttr_removeAttrKey, if_pos rfl] at hrem
      exact hrem
    · exact cellAliveN_oob ⟨t.grid.rows, t.grid.cols, removeAttrKey t.grid.attrs q⟩ q hb
  · intro t q
    rfl
  · intro hdead
    have hattr : lookupAttr s.grid.attrs p = none := by
      rcases hv with hv | hv
      · exact hv
      · rw [cellAliveN_eq_truthy s.grid p h1 h2, hv] at hdead
        cases hdead
    rw [htouch, hattr]
    simp
  · intro halive
    have hattr : lookupAttr s.grid.attrs p = some "true" := by
      rcases hv with hv | hv
      · rw [cellAliveN_eq_truthy s.grid p h1 h2, hv] at halive
        cases halive
      · exact hv
    rw [htouch, hattr]
    simp

/-- Witness for C5: pressing the dead cell (0,0) of an idle 2-by-2 game with
the mouse enters Add mode; pressing the alive cell (0,0) of another enters
Delete mode; entering (1,1) in Add mode makes it alive; touch-starting on the
same dead cell enters Delete mode and on the alive cell enters Add mode. -/
theorem paint_gesture_mode_and_effect_witness :
    (mousedownGesture { grid := { rows := 2, cols := 2, attrs := [] }, dragType := none, nextId := 0, active := [], intervalId := none } (0, 0)).dragType = some DragType.add ∧
    (mousedownGesture { grid := { rows := 2, cols := 2, attrs := [((0, 0), "true")] }, dragType := none, nextId := 0, active := [], intervalId := none } (0, 0)).dragType = some DragType.delete ∧
    cellAliveN (mouseEnter { grid := { rows := 2, cols := 2, attrs := [] }, dragType := some DragType.add, nextId := 0, active := [], intervalId := none } (1, 1)).grid (1, 1) = true ∧
    (touchstartGesture { grid := { rows := 2, cols := 2, attrs := [] }, dragType := none, nextId := 0, active := [], intervalId := none } (0, 0)).dragType = some DragType.delete ∧
    (touchstartGesture { grid := { rows := 2, cols := 2, attrs := [((0, 0), "true")] }, dragType := none, nextId := 0, active := [], intervalId := none } (0, 0)).dragType = some DragType.add := by
  refine ⟨?_, ?_, ?_, ?_, ?_⟩
  · exact (paint_gesture_mode_and_effect
      { grid := { rows := 2, cols := 2, attrs := [] }, dragType := none, nextId := 0, active := [], intervalId := none }
      (0, 0) (by decide) (by decide) (Or.inl (by decide))).1 (by decide)
  · exact (paint_gesture_mode_and_effect
      { grid := { rows := 2, cols := 2, attrs := [((0, 0), "true")] }, dragType := none, nextId := 0, active := [], intervalId := none }
      (0, 0) (by decide) (by decide) (Or.inr (by decide))).2.1 (by decide)
  · exact (paint_gesture_mode_and_effect
      { grid := { rows := 2, cols := 2, attrs := [] }, dragType := none, nextId := 0, active := [], intervalId := none }
      (0, 0) (by decide) (by decide) (Or.inl (by decide))).2.2.1
      { grid := { rows := 2, cols := 2, attrs := [] }, dragType := some DragType.add, nextId := 0, active := [], intervalId := none }
      (1, 1) rfl (by decide) (by decide)
  · exact (paint_gesture_mode_and_effect
      { grid := { rows := 2, cols := 2, attrs := [] }, dragType := none, nextId := 0, active := [], intervalId := none }
      (0, 0) (by decide) (by decide) (Or.inl (by decide))).2.2.2.2.2.1 (by decide)
  · exact (paint_gesture_mode_and_effect
      { grid := { rows := 2, cols := 2, attrs := [((0, 0), "true")] }, dragType := none, nextId := 0, active := [], intervalId := none }
      (0, 0) (by decide) (by decide) (Or.inr (by decide))).2.2.2.2.2.2 (by decide)

/-- C5 counterexample: a touch gesture starting on the dead cell (0,0) of an
idle 2-by-2 game enters Delete mode, not the Add mode the claim requires —
the touchstart listener reads the attribute before any toggle, so the
inverted ternary acts on the pre-gesture state. -/
theorem touch_gesture_on_dead_cell_enters_delete :
    cellAliveN { rows := 2, cols := 2, attrs := [] } (0, 0) = false ∧
    (touchstartGesture { grid := { rows := 2, cols := 2, attrs := [] }, dragType := none, nextId := 0, active := [], intervalId := none } (0, 0)).dragType = some DragType.delete ∧
    (touchstartGesture { grid := { rows := 2, cols := 2, attrs := [] }, dragType := none, nextId := 0, active := [], intervalId := none } (0, 0)).dragType ≠ some DragType.add := by
  decide

end GoL

namespace GoL

/-- C7 counterexample: with the clock Running (one active interval, id 0),
applying a viewport resize reshapes the grid to 3-by-3 while the clock stays
Running — the `initResize` handler never calls `pause`, so the clock is not
forced to Stopped before the shape is mutated. -/
theorem resize_leaves_clock_running :
    (onResize { grid := { rows := 2, cols := 2, attrs := [] }, dragType := none, nextId := 1, active := [0], intervalId := some 0 } 3 3).intervalId = some 0 ∧
    (onResize { grid := { rows := 2, cols := 2, attrs := [] }, dragType := none, nextId := 1, active := [0], intervalId := some 0 } 3 3).active = [0] ∧
    (onResize { grid := { rows := 2, cols := 2, attrs := [] }, dragType := none, nextId := 1, active := [0], intervalId := some 0 } 3 3).grid.rows = 3 := by
  refine ⟨rfl, rfl, ?_⟩
  decide

/-- C7 amended: a mouse paint-gesture start stops the clock (`pause` runs
before the drag mode is set) and enters a paint mode, but a viewport resize
reshapes the grid without touching the clock at all. -/
theorem clock_stop_on_paint_not_on_resize (s : GameState) (p : Nat × Nat) (R C : Nat) :
    (mousedownGesture s p).intervalId = none ∧
    (mousedownGesture s p).dragType ≠ none ∧
    (onResize s R C).intervalId = s.intervalId ∧
    (onResize s R C).active = s.active := by
  refine ⟨?_, ?_, rfl, rfl⟩
  · show (pause { s with grid := toggleCell s.grid p }).intervalId = none
    obtain ⟨g, d, n, a, i⟩ := s
    cases i <;> rfl
  · show (if lookupAttr (pause { s with grid := toggleCell s.grid p }).grid.attrs p ≠ some "true"
        then some DragType.delete else some DragType.add) ≠ none
    split <;> intro h <;> cases h

/-- C8 counterexample: from the initial stopped state, calling `play` twice
leaves two active periodic tick sources (`setInterval` is not guarded), and
the following `pause` cancels only the second one — the first interval keeps
ticking after `pause` returns. -/
theorem double_play_leaks_interval :
    (play (play { grid := { rows := 1, cols := 1, attrs := [] }, dragType := none, nextId := 0, active := [], intervalId := none })).active = [0, 1] ∧
    (pause (play (play { grid := { rows := 1, cols := 1, attrs := [] }, dragType := none, nextId := 0, active := [], intervalId := none }))).active = [0] := by
  decide

/-- C8 amended: `pause` on a stopped clock is a no-op that does not throw and
cancels nothing, and the play button toggles — two clicks from a stopped
state start and then fully cancel exactly one interval — but `play` itself is
unguarded (see the counterexample). -/
theorem clock_amended_transitions (s : GameState)
    (hfresh : ∀ i ∈ s.active, i < s.nextId) (hstop : s.intervalId = none) :
    pause s = s ∧
    (playBtnClick (playBtnClick s)).active = s.active ∧
    (playBtnClick (playBtnClick s)).intervalId = none := by
  obtain ⟨g, d, n, a, i⟩ := s
  have hi : i = none := hstop
  subst hi
  have hfresh' : ∀ i ∈ a, i < n := hfresh
  have hnotmem : n ∉ a := fun hmem => by
    have := hfresh' n hmem
    omega
  have h1 : playBtnClick ⟨g, d, n, a, none⟩ = ⟨g, d, n + 1, a ++ [n], some n⟩ := by
    unfold playBtnClick
    rw [if_pos rfl]
    rfl
  have h2 : playBtnClick ⟨g, d, n + 1, a ++ [n], some n⟩
      = ⟨g, d, n + 1, (a ++ [n]).erase n, none⟩ := by
    unfold playBtnClick
    rw [if_neg (fun h => Option.noConfusion h)]
    rfl
  have herase : (a ++ [n]).erase n = a := by
    rw [List.erase_append_right [n] hnotmem, List.erase_cons_head]
    simp
  refine ⟨rfl, ?_, ?_⟩
  · rw [h1, h2]
    exact herase
  · rw [h1, h2]

/-- Witness for C8 amended: from a stopped state with two stale source ids,
`pause` is the identity and a double button click restores the active set. -/
theorem clock_amended_transitions_witness :
    pause { grid := { rows := 1, cols := 1, attrs := [] }, dragType := none, nextId := 2, active := [0, 1], intervalId := none } = { grid := { rows := 1, cols := 1, attrs := [] }, dragType := none, nextId := 2, active := [0, 1], intervalId := none } ∧
    (playBtnClick (playBtnClick { grid := { rows := 1, cols := 1, attrs := [] }, dragType := none, nextId := 2, active := [0, 1], intervalId := none })).active = [0, 1] ∧
    (playBtnClick (playBtnClick { grid := { rows := 1, cols := 1, attrs := [] }, dragType := none, nextId := 2, active := [0, 1], intervalId := none })).intervalId = none :=
  clock_amended_transitions
    { grid := { rows := 1, cols := 1, attrs := [] }, dragType := none, nextId := 2, active := [0, 1], intervalId := none }
    (by decide) (by decide)

end GoL
